import Mathlib

/-!
Verification of the numerical engines of the portfolio-analysis project
(src/portfolio_utils.py and src/technical_analysis.py).

Modelling conventions.
Machine floats are modelled as exact rationals.  A float slot that the
pandas/numpy code can fill with NaN (sample standard deviation of fewer than
two observations, mean of an empty series) is modelled as Option the rational
type, with none standing for NaN; numpy comparisons such as NaN greater than 0
evaluate to False, which the model mirrors by pattern matching.  External
library calls that are not part of the repository are parameters of the
embedding: np.sqrt is a parameter msqrt, the float power operator used for
annualising returns is a parameter fpow, scipy.optimize.minimize is an oracle
whose answer for a given problem is passed in as an Option of a weight list
(none meaning non-convergence or an exception), and np.random.random is an
input stream of draw vectors indexed by the attempt number.
-/

namespace FinTP

/-- NaN-aware float value: none stands for NaN. -/
abbrev PVal := Option ℚ

/-- Sum of a list of rationals (np.sum / pandas sum). -/
def sumQ (xs : List ℚ) : ℚ := xs.sum

/-- Dot product of two aligned vectors. -/
def dotQ (xs ys : List ℚ) : ℚ := sumQ (List.zipWith (· * ·) xs ys)

/-- Arithmetic mean; pandas mean of a nonempty series (0 on empty, unused there). -/
def meanQ (xs : List ℚ) : ℚ := sumQ xs / xs.length

/-- pandas mean: NaN on an empty series, the arithmetic mean otherwise. -/
def pmean (xs : List ℚ) : PVal := if xs.isEmpty then none else some (meanQ xs)

/-- Sample variance with ddof = 1 (the pandas default), for two or more points. -/
def samplevarQ (xs : List ℚ) : ℚ :=
  let m := meanQ xs
  sumQ (xs.map (fun x => (x - m) ^ 2)) / ((xs.length : ℚ) - 1)

/-- pandas std: NaN for fewer than two observations, else sqrt of the sample
variance, where msqrt is the external square-root routine. -/
def pstd (msqrt : ℚ → ℚ) (xs : List ℚ) : PVal :=
  if 2 ≤ xs.length then some (msqrt (samplevarQ xs)) else none

/-- The zero-guarded Sharpe quotient written at each site of the source as:
ret / vol if vol > 0 else 0, with a NaN volatility also yielding 0 because
NaN > 0 is False in numpy. -/
def sharpeDe (ret : ℚ) (vol : PVal) : ℚ :=
  match vol with
  | some v => if 0 < v then ret / v else 0
  | none => 0

/-- Computable stand-in used only to instantiate theorems that are quantified
over the external square-root implementation; it agrees with the real square
root on 0 and on perfect squares, which is all the concrete instances use. -/
def sqrtQ (q : ℚ) : ℚ :=
  if q ≤ 0 then 0 else (Nat.sqrt q.num.toNat : ℚ) / (Nat.sqrt q.den : ℚ)

/-- Stand-in for the float power operator, used only to instantiate theorems
that are quantified over it. -/
def qpow1 : ℚ → ℚ → ℚ := fun a _ => a

/-- Element-by-element percentage change of consecutive values
(pandas pct_change with the leading NaN dropped). -/
def pctChanges (xs : List ℚ) : List ℚ :=
  List.zipWith (fun prev cur => (cur - prev) / prev) xs xs.tail

/-- Cumulative product of (1 + r) (source: precio_cum = (1 + ret).cumprod()). -/
def cumprodQ (xs : List ℚ) : List ℚ :=
  (xs.scanl (fun acc r => acc * (1 + r)) 1).tail

/-- Expanding (running) maximum of a series (pandas expanding().max()). -/
def runningMax (xs : List ℚ) : List ℚ :=
  match xs with
  | [] => []
  | a :: rest => rest.scanl max a

/-- Minimum of a nonempty list (pandas .min(); 0 on empty, unused there). -/
def minQ (xs : List ℚ) : ℚ :=
  match xs with
  | [] => 0
  | a :: rest => rest.foldl min a

/-!
## Backtesting engine (src/technical_analysis.py, backtest_estrategia)

The day-by-day replay keeps the internal variables capital, acciones and
posicion; the first row only seeds the series and is skipped (i == 0), every
later row runs the two-branch transition.  The ledger row recorded for a
processed row is the post-transition state together with the commission paid
on that row (datos Comisiones column, 0.0 except on a trade).
-/

/-- Internal state of the backtest loop: cash, share count, position flag. -/
structure BTEstado where
  capital : ℚ
  acciones : ℚ
  posicion : ℕ
deriving Repr, DecidableEq

/-- One processed row of the replay (source lines 450-469): buy when the
signal is 1 and the position is 0, sell when the signal is -1 and the position
is 1, otherwise leave everything unchanged.  Returns the new state and the
commission paid on the row. -/
def btStep (comision : ℚ) (st : BTEstado) (precio : ℚ) (senal : ℤ) : BTEstado × ℚ :=
  if senal = 1 ∧ st.posicion = 0 then
    let pago := st.capital * comision
    (⟨0, (st.capital - pago) / precio, 1⟩, pago)
  else if senal = -1 ∧ st.posicion = 1 then
    let cap := st.acciones * precio
    let pago := cap * comision
    (⟨cap - pago, 0, 0⟩, pago)
  else (st, 0)

/-- Replay of the rows after the first one, threading the state. -/
def btGo (comision : ℚ) : BTEstado → List (ℚ × ℤ) → List (BTEstado × ℚ)
  | _, [] => []
  | st, (p, s) :: rs =>
    let paso := btStep comision st p s
    paso :: btGo comision paso.1 rs

/-- Initial state: all cash, no shares, flat. -/
def estadoInicial (cap0 : ℚ) : BTEstado := ⟨cap0, 0, 0⟩

/-- The ledger part of backtest_estrategia: the sequence of (state, commission)
pairs for rows 1 .. n-1 of the aligned (price, signal) table; row 0 is skipped
by the source loop. -/
def backtest_estrategia (comision cap0 : ℚ) (filas : List (ℚ × ℤ)) :
    List (BTEstado × ℚ) :=
  match filas with
  | [] => []
  | _ :: rest => btGo comision (estadoInicial cap0) rest

/-- The ledger Capital column: row 0 holds the initial capital, every later
row holds cash plus share value, where the share value uses the source guard
acciones * precio if acciones > 0 else 0 (line 476). -/
def equityCol (cap0 : ℚ) (filas : List (ℚ × ℤ)) (tr : List (BTEstado × ℚ)) :
    List ℚ :=
  cap0 :: List.zipWith
    (fun (pr : BTEstado × ℚ) (fila : ℚ × ℤ) =>
      pr.1.capital + (if 0 < pr.1.acciones then pr.1.acciones * fila.1 else 0))
    tr filas.tail

/-- The performance summary of backtest_estrategia (source lines 486-540).
The fields VaR and the normality block do not exist here; fpow models the
float power operator used to annualise compounded returns and msqrt models
np.sqrt.  The two volatility fields follow pandas std semantics and can be
NaN; both Sharpe fields use the zero-guarded quotient of lines 504-505. -/
structure BTMetricas where
  capital_final : ℚ
  retorno_total : ℚ
  retorno_anualizado_estrategia : ℚ
  retorno_anualizado_buy_hold : ℚ
  vol_estrategia : PVal
  vol_buy_hold : PVal
  sharpe_estrategia : ℚ
  sharpe_buy_hold : ℚ
  max_drawdown : ℚ
  calmar_ratio : ℚ
  win_rate : ℚ
  total_trades : ℕ
  comisiones_totales : ℚ
deriving Repr, DecidableEq

/-- Metrics computed after the replay, following source lines 486-540.
The Retorno_Estrategia column is 0 at row 0 and the percentage change of the
ledger Capital column afterwards; the buy-and-hold volatility drops the
leading NaN of pct_change exactly as pandas std does. -/
def backtest_metricas (msqrt : ℚ → ℚ) (fpow : ℚ → ℚ → ℚ) (comision cap0 : ℚ)
    (filas : List (ℚ × ℤ)) : BTMetricas :=
  let tr := backtest_estrategia comision cap0 filas
  let equity := equityCol cap0 filas tr
  let retEst : List ℚ := 0 :: pctChanges equity
  let precios := filas.map Prod.fst
  let capital_final := equity.getLastD cap0
  let retorno_total := (capital_final - cap0) / cap0
  let anos : ℚ := (filas.length : ℚ) / 252
  let raEst := fpow (1 + retorno_total) (1 / anos) - 1
  let p0 := precios.headD 0
  let retorno_bh := (precios.getLastD 0 - p0) / p0
  let raBH := fpow (1 + retorno_bh) (1 / anos) - 1
  let volEst := (pstd msqrt retEst).map (· * msqrt 252)
  let volBH := (pstd msqrt (pctChanges precios)).map (· * msqrt 252)
  let rmax := runningMax equity
  let dd := List.zipWith (fun c m => (c - m) / m) equity rmax
  let mdd := minQ dd
  let calmar := if mdd ≠ 0 then raEst / |mdd| else 0
  let trades := (List.zipWith (fun (fila : ℚ × ℤ) r => (fila.2, r)) filas retEst).filter
    (fun pr => decide (pr.1 ≠ 0))
  let winning := (trades.filter (fun pr => decide (0 < pr.2))).length
  let win_rate := if 0 < trades.length then (winning : ℚ) / trades.length else 0
  ⟨capital_final, retorno_total, raEst, raBH, volEst, volBH,
    sharpeDe raEst volEst, sharpeDe raBH volBH, mdd, calmar, win_rate,
    trades.length, sumQ (tr.map Prod.snd)⟩

/-!
## Risk-metrics engine (src/portfolio_utils.py, calcular_metricas_riesgo)

An input column is a list of optional rationals: none entries are the NaN
cells that dropna removes.  Assets whose cleaned series is empty are skipped
with a printed warning (lines 50-52); every other asset receives a row.  The
fields VaR_95_Parametrico, Sesgo, Curtosis and the Jarque-Bera block are
direct scipy calls whose values never feed any other field, so they are not
modelled; the modelled fields are computed exactly as in lines 54-102.
-/

/-- np.percentile with the default linear interpolation. -/
def percentileQ (xs : List ℚ) (q : ℚ) : ℚ :=
  let s := xs.mergeSort (fun a b => decide (a ≤ b))
  let h : ℚ := q / 100 * ((s.length : ℚ) - 1)
  let lo : ℕ := (⌊h⌋).toNat
  let frac : ℚ := h - (⌊h⌋ : ℚ)
  let a := s.getD lo 0
  let b := s.getD (lo + 1) a
  a + frac * (b - a)

/-- One row of the risk-metrics table. -/
structure MetricasRiesgo where
  retorno_anual : ℚ
  volatilidad_anual : PVal
  sharpe_ratio : ℚ
  var_historico : ℚ
  cvar_historico : PVal
  max_drawdown : ℚ
deriving Repr, DecidableEq

/-- The per-asset body of the loop of calcular_metricas_riesgo, applied to a
cleaned nonempty series. -/
def metricasDe (msqrt : ℚ → ℚ) (confianza : ℚ) (ventana : ℕ) (s : List ℚ) :
    MetricasRiesgo :=
  let media := meanQ s
  let std := pstd msqrt s
  let retorno_anual := media * (ventana : ℚ)
  let vol := std.map (· * msqrt (ventana : ℚ))
  let varh := percentileQ s (confianza * 100)
  let cvar := pmean (s.filter (fun r => decide (r ≤ varh)))
  let cum := cumprodQ s
  let dd := List.zipWith (fun c m => (c - m) / m) cum (runningMax cum)
  ⟨retorno_anual, vol, sharpeDe retorno_anual vol, varh, cvar, minQ dd⟩

/-- The per-asset loop of calcular_metricas_riesgo (lines 47-102): one row per
asset whose cleaned series is nonempty, in input order; zero-observation
assets are skipped with a printed warning. -/
def metricasFilas (msqrt : ℚ → ℚ) (retornos : List (String × List PVal))
    (confianza : ℚ) (ventana : ℕ) : List (String × MetricasRiesgo) :=
  retornos.filterMap (fun c =>
    let s := c.2.filterMap id
    if s.isEmpty then none else some (c.1, metricasDe msqrt confianza ventana s))

/-- calcular_metricas_riesgo.  After the loop, the summary print at line 107
indexes the Retorno_Anual column of the assembled frame; when no asset
produced a row that frame is empty and the lookup raises KeyError, so the
function never returns in that case - modelled as none.  With at least one
row the call returns the table. -/
def calcular_metricas_riesgo (msqrt : ℚ → ℚ) (retornos : List (String × List PVal))
    (confianza : ℚ) (ventana : ℕ) : Option (List (String × MetricasRiesgo)) :=
  let filas := metricasFilas msqrt retornos confianza ventana
  if filas.isEmpty then none else some filas

/-!
## Monte Carlo sampler (src/portfolio_utils.py, simular_portfolios)

Weight constraints are a Python dict with optional keys; the draw stream
stands for np.random.random(num_activos), indexed by the attempt counter.
The loop body only inspects the weights, so the accepted weight vectors are
collected first and each accepted vector is then evaluated into a
(Retorno, Volatilidad, Sharpe, Pesos) record, exactly the data the source
appends inside the loop.
-/

/-- The restricciones dict: any of the three keys may be absent. -/
structure Restricciones where
  peso_min : Option ℚ
  peso_max : Option ℚ
  costos_transaccion : Option ℚ
deriving Repr, DecidableEq

/-- Default resolution of simular_portfolios, lines 171-176: a missing dict
becomes the unconstrained one, then each bound falls back to 0 and 1. -/
def simResolved (restricciones : Option Restricciones) : ℚ × ℚ :=
  let r := restricciones.getD ⟨some 0, some 1, none⟩
  (r.peso_min.getD 0, r.peso_max.getD 1)

/-- Normalise a draw to sum 1 (line 199).  A zero-sum draw divides by zero;
numpy produces NaN weights there, modelled by the rational convention
x / 0 = 0 (both survive the bound check below exactly when peso_min is 0 or
less, as in every claim exercised here). -/
def normalizar (draw : List ℚ) : List ℚ :=
  let s := sumQ draw
  draw.map (· / s)

/-- The rejection test of line 202: any weight below the minimum or above the
maximum. -/
def fueraDeLimites (pmin pmax : ℚ) (pesos : List ℚ) : Bool :=
  pesos.any (fun p => decide (p < pmin)) || pesos.any (fun p => decide (p > pmax))

/-- The while loop of lines 194-216, with fuel = max_intentos - intentos.
Arguments after the draw stream: remaining fuel, intentos, exitosas, and the
accumulator of accepted weight vectors (reversed).  Returns the accepted
vectors in acceptance order and the final attempt count. -/
def simLoop (pmin pmax : ℚ) (numSim : ℕ) (draws : ℕ → List ℚ) :
    ℕ → ℕ → ℕ → List (List ℚ) → List (List ℚ) × ℕ
  | 0, intentos, _, acc => (acc.reverse, intentos)
  | fuel + 1, intentos, exitosas, acc =>
    if exitosas < numSim then
      let pesos := normalizar (draws intentos)
      if fueraDeLimites pmin pmax pesos then
        simLoop pmin pmax numSim draws fuel (intentos + 1) exitosas acc
      else
        simLoop pmin pmax numSim draws fuel (intentos + 1) (exitosas + 1) (pesos :: acc)
    else (acc.reverse, intentos)

/-- Annualised mean returns, retornos.mean() * 252 (line 179). -/
def mediasAnuales (retornos : List (String × List ℚ)) : List ℚ :=
  retornos.map (fun c => meanQ c.2 * 252)

/-- Pairwise sample covariance with ddof = 1 on aligned columns. -/
def covQ (xs ys : List ℚ) : ℚ :=
  let mx := meanQ xs
  let my := meanQ ys
  sumQ (List.zipWith (fun a b => (a - mx) * (b - my)) xs ys) / ((xs.length : ℚ) - 1)

/-- Annualised covariance matrix, retornos.cov() * 252 (line 180). -/
def covAnual (retornos : List (String × List ℚ)) : List (List ℚ) :=
  (retornos.map Prod.snd).map (fun x =>
    (retornos.map Prod.snd).map (fun y => 252 * covQ x y))

/-- The quadratic form pesos-transpose * cov * pesos. -/
def quadForm (cov : List (List ℚ)) (w : List ℚ) : ℚ :=
  sumQ (List.zipWith (fun wi fila => wi * dotQ fila w) w cov)

/-- One simulated portfolio record (lines 205-214). -/
structure SimPoint where
  retorno : ℚ
  volatilidad : ℚ
  sharpe : ℚ
  pesos : List ℚ
deriving Repr, DecidableEq

/-- Evaluation of an accepted weight vector, lines 205-208: gross annual
return, volatility through the external sqrt, zero-guarded Sharpe. -/
def mkSimPoint (msqrt : ℚ → ℚ) (means : List ℚ) (cov : List (List ℚ))
    (w : List ℚ) : SimPoint :=
  let ret := dotQ means w
  let vol := msqrt (quadForm cov w)
  ⟨ret, vol, if 0 < vol then ret / vol else 0, w⟩

/-- simular_portfolios: the list of accepted portfolio records and the final
attempt count. -/
def simular_portfolios (msqrt : ℚ → ℚ) (retornos : List (String × List ℚ))
    (numSim : ℕ) (restricciones : Option Restricciones) (draws : ℕ → List ℚ) :
    List SimPoint × ℕ :=
  let pb := simResolved restricciones
  let means := mediasAnuales retornos
  let cov := covAnual retornos
  let r := simLoop pb.1 pb.2 numSim draws (10 * numSim) 0 0 []
  (r.1.map (mkSimPoint msqrt means cov), r.2)

/-!
## Constrained optimiser (src/portfolio_utils.py, optimizar_portfolio)

scipy.optimize.minimize is external: its answer for the posed problem is the
oracle argument osolve, none meaning non-convergence or an exception, in
which case the source returns the failure dict, modelled as none.  The
objective functions of lines 278-290 exist only to be handed to that solver,
as do the bounds and the equality constraint, so they do not appear in the
result computation of lines 326-357, which is modelled in full.
-/

/-- Valid values of the objetivo argument; any other string raises before the
solver runs (line 300). -/
inductive Objetivo
  | sharpe_max
  | vol_min
  | retorno_max
deriving Repr, DecidableEq

/-- Default resolution of optimizar_portfolio, lines 265-271: a missing dict
becomes 5 percent minimum, 40 percent maximum, 0.5 percent transaction cost. -/
def optResolved (restricciones : Option Restricciones) : Restricciones :=
  restricciones.getD ⟨some (1/20), some (2/5), some (1/200)⟩

/-- The success dict of optimizar_portfolio (lines 338-349). -/
structure OptExito where
  pesos : List ℚ
  retorno_bruto : ℚ
  retorno_neto : ℚ
  volatilidad : ℚ
  sharpe_bruto : ℚ
  sharpe_neto : ℚ
  costos_estimados : ℚ
deriving Repr, DecidableEq

/-- optimizar_portfolio with the solver answer passed as an oracle.  The
objetivo argument selects the objective handed to the external solver and
does not influence the bookkeeping of the success dict. -/
def optimizar_portfolio (msqrt : ℚ → ℚ) (retornos : List (String × List ℚ))
    (_objetivo : Objetivo) (restricciones : Option Restricciones)
    (osolve : Option (List ℚ)) : Option OptExito :=
  let r := optResolved restricciones
  let means := mediasAnuales retornos
  let cov := covAnual retornos
  osolve.map (fun pesos =>
    let ret := dotQ means pesos
    let vol := msqrt (quadForm cov pesos)
    let costos := r.costos_transaccion.getD 0 * sumQ (pesos.map (fun x => |x|))
    let neto := ret - costos
    { pesos := pesos
      retorno_bruto := ret
      retorno_neto := neto
      volatilidad := vol
      sharpe_bruto := if 0 < vol then ret / vol else 0
      sharpe_neto := if 0 < vol then neto / vol else 0
      costos_estimados := costos })

/-!
## Efficient frontier (src/portfolio_utils.py, calcular_frontera_eficiente)

Two bracketing calls of optimizar_portfolio fix the net-return range; the
per-target volatility minimisations are again external solves, passed as a
function from the target return to the solver answer.
-/

/-- One frontier point (lines 439-442). -/
structure PuntoFrontera where
  retorno : ℚ
  volatilidad : ℚ
  sharpe : ℚ
  pesos : List ℚ
deriving Repr, DecidableEq

/-- np.linspace with endpoint included. -/
def linspace (a b : ℚ) (n : ℕ) : List ℚ :=
  if n = 0 then []
  else if n = 1 then [a]
  else (List.range n).map (fun i => a + (b - a) * (i : ℚ) / ((n : ℚ) - 1))

/-- The per-target loop of lines 411-445: failed targets are dropped,
successful ones are evaluated at lines 434-442. -/
def puntosFrontera (msqrt : ℚ → ℚ) (cov : List (List ℚ)) (targets : List ℚ)
    (stgt : ℚ → Option (List ℚ)) : List PuntoFrontera :=
  targets.filterMap (fun t =>
    (stgt t).map (fun pesos =>
      let vol := msqrt (quadForm cov pesos)
      ⟨t, vol, if 0 < vol then t / vol else 0, pesos⟩))

/-- calcular_frontera_eficiente: none when a bracketing solve fails (lines
391-393) and also when the per-target list comes out empty (lines 447-449). -/
def calcular_frontera_eficiente (msqrt : ℚ → ℚ) (retornos : List (String × List ℚ))
    (numPuntos : ℕ) (restricciones : Option Restricciones)
    (smin smax : Option (List ℚ)) (stgt : ℚ → Option (List ℚ)) :
    Option (List PuntoFrontera) :=
  match optimizar_portfolio msqrt retornos .vol_min restricciones smin,
      optimizar_portfolio msqrt retornos .retorno_max restricciones smax with
  | some pmin, some pmax =>
    let targets := linspace pmin.retorno_neto pmax.retorno_neto numPuntos
    let pts := puntosFrontera msqrt (covAnual retornos) targets stgt
    if pts.isEmpty then none else some pts
  | _, _ => none

/-- The state invariant claimed for the replay: long exactly when shares are
held, all cash invested while long, no shares while flat. -/
def invariantePosicion (st : BTEstado) : Prop :=
  (st.posicion = 1 ↔ 0 < st.acciones) ∧ (st.posicion = 1 → st.capital = 0) ∧
    (st.posicion = 0 → st.acciones = 0)

/-- Strengthened replay invariant used for the induction: a flat state holds
no shares and positive cash, a long state holds no cash and positive shares. -/
def estadoSano (st : BTEstado) : Prop :=
  (st.posicion = 0 ∧ st.acciones = 0 ∧ 0 < st.capital) ∨
    (st.posicion = 1 ∧ st.capital = 0 ∧ 0 < st.acciones)

/-!
## Theorems
-/

/-- C3: for every price series and a signal series whose only trades are a buy
at row 1 and a sell at row 5, with commission 0.001 and capital 100000, the
cash recorded right after the sell equals shares_bought times price_5 times
(1 - 0.001), with shares_bought = 99900 / price_1, and the sell commission is
shares_bought times price_5 times 0.001. -/
theorem c3_ciclo_compra_venta (p0 p1 p2 p3 p4 p5 : ℚ) (s0 : ℤ)
    (resto : List (ℚ × ℤ)) (hp1 : 0 < p1) :
    (backtest_estrategia (1/1000) 100000
        ((p0, s0) :: (p1, 1) :: (p2, 0) :: (p3, 0) :: (p4, 0) :: (p5, -1) :: resto)).get? 4
      = some (⟨99900 / p1 * p5 * (999/1000), 0, 0⟩, 99900 / p1 * p5 * (1/1000)) := by
  clear hp1
  simp only [backtest_estrategia, btGo, btStep, estadoInicial]
  norm_num [BTEstado.mk.injEq]
  ring

/-- Witness for C3 at the concrete price series 10,10,10,10,10,10. -/
theorem c3_ciclo_compra_venta_witness :
    (backtest_estrategia (1/1000) 100000
        ((10, 0) :: (10, 1) :: (10, 0) :: (10, 0) :: (10, 0) :: ((10 : ℚ), (-1 : ℤ)) :: [])).get? 4
      = some (⟨99900 / 10 * 10 * (999/1000), 0, 0⟩, 99900 / 10 * 10 * (1/1000)) :=
  c3_ciclo_compra_venta 10 10 10 10 10 10 0 [] (by norm_num)

/-- C6: any signal/state combination other than a buy signal while flat or a
sell signal while long leaves position, share count and cash unchanged and
charges no commission, both at the level of the single-row transition and of
the replay. -/
theorem c6_fila_sin_operacion (comision : ℚ) (st : BTEstado) (precio : ℚ)
    (senal : ℤ) (rs : List (ℚ × ℤ))
    (h1 : ¬(senal = 1 ∧ st.posicion = 0)) (h2 : ¬(senal = -1 ∧ st.posicion = 1)) :
    btStep comision st precio senal = (st, 0) ∧
    btGo comision st ((precio, senal) :: rs) = (st, 0) :: btGo comision st rs := by
  have hstep : btStep comision st precio senal = (st, 0) := by
    unfold btStep
    rw [if_neg h1, if_neg h2]
  refine ⟨hstep, ?_⟩
  show (btStep comision st precio senal) :: btGo comision (btStep comision st precio senal).1 rs
      = (st, 0) :: btGo comision st rs
  rw [hstep]

/-- Witness for C6: a sell signal while flat is ignored. -/
theorem c6_fila_sin_operacion_witness :
    btStep (1/1000) ⟨100000, 0, 0⟩ 10 (-1) = (⟨100000, 0, 0⟩, 0) ∧
    btGo (1/1000) ⟨100000, 0, 0⟩ ((10, -1) :: []) = (⟨100000, 0, 0⟩, 0) :: btGo (1/1000) ⟨100000, 0, 0⟩ [] :=
  c6_fila_sin_operacion (1/1000) ⟨100000, 0, 0⟩ 10 (-1) [] (by decide) (by decide)

lemma estadoSano_invariante {st : BTEstado} (h : estadoSano st) :
    invariantePosicion st := by
  rcases h with ⟨h0, ha, _⟩ | ⟨h1, hc, ha⟩
  · refine ⟨⟨fun hp => by omega, fun hlt => ?_⟩, fun hp => by omega, fun _ => ha⟩
    rw [ha] at hlt
    exact absurd hlt (lt_irrefl 0)
  · exact ⟨⟨fun _ => ha, fun _ => h1⟩, fun _ => hc, fun h0 => by omega⟩

lemma btStep_sano (comision : ℚ) (st : BTEstado) (precio : ℚ) (senal : ℤ)
    (hc1 : comision < 1) (hp : 0 < precio) (h : estadoSano st) :
    estadoSano (btStep comision st precio senal).1 := by
  simp only [btStep]
  split
  next hbuy =>
    rcases h with ⟨-, -, hcap⟩ | ⟨h1, -, -⟩
    · right
      refine ⟨rfl, rfl, ?_⟩
      show 0 < (st.capital - st.capital * comision) / precio
      have he : st.capital - st.capital * comision = st.capital * (1 - comision) := by
        ring
      rw [he]
      exact div_pos (mul_pos hcap (by linarith)) hp
    · exact absurd hbuy.2 (by omega)
  next hnb =>
    split
    next hsell =>
      rcases h with ⟨h0, -, -⟩ | ⟨-, -, hacc⟩
      · exact absurd hsell.2 (by omega)
      · left
        refine ⟨rfl, rfl, ?_⟩
        show 0 < st.acciones * precio - st.acciones * precio * comision
        have he : st.acciones * precio - st.acciones * precio * comision
            = st.acciones * precio * (1 - comision) := by
          ring
        rw [he]
        exact mul_pos (mul_pos hacc hp) (by linarith)
    next hn2 => exact h

lemma btGo_sano (comision : ℚ) (hc1 : comision < 1) :
    ∀ (rs : List (ℚ × ℤ)) (st : BTEstado), estadoSano st →
      (∀ pr ∈ rs, 0 < pr.1) →
      ∀ st2 ∈ (btGo comision st rs).map Prod.fst, estadoSano st2 := by
  intro rs
  induction rs with
  | nil =>
    intro st _ _ st2 h2
    simp [btGo] at h2
  | cons hd tl ih =>
    obtain ⟨p, s⟩ := hd
    intro st hst hpos st2 h2
    simp only [btGo, List.map_cons, List.mem_cons] at h2
    have hstep : estadoSano (btStep comision st p s).1 :=
      btStep_sano comision st p s hc1 (hpos (p, s) (by simp)) hst
    rcases h2 with rfl | h2
    · exact hstep
    · exact ih (btStep comision st p s).1 hstep
        (fun pr hpr => hpos pr (by simp [hpr])) st2 h2

/-- C9 counterexample: over an arbitrary price/signal input the invariant can
fail: a buy at a negative price leaves position 1 with a negative share
count. -/
theorem c9_counterexample :
    (backtest_estrategia (1/1000) 100000 [((1 : ℚ), (0 : ℤ)), (-1, 1)]).map Prod.fst
        = [⟨0, -99900, 1⟩] ∧
    ¬ invariantePosicion ⟨0, -99900, 1⟩ := by
  constructor
  · norm_num [backtest_estrategia, btGo, btStep, estadoInicial, BTEstado.mk.injEq]
  · norm_num [invariantePosicion]

/-- C9 amended: the replay invariant holds after every processed row provided
every price is positive, the commission rate is below 1, and the initial
capital is positive. -/
theorem c9_invariante_amendado (comision cap0 : ℚ) (filas : List (ℚ × ℤ))
    (hc1 : comision < 1) (hcap : 0 < cap0)
    (hpos : ∀ pr ∈ filas, 0 < pr.1) :
    ∀ st ∈ (backtest_estrategia comision cap0 filas).map Prod.fst,
      invariantePosicion st := by
  intro st hmem
  cases filas with
  | nil => simp [backtest_estrategia] at hmem
  | cons hd tl =>
    refine estadoSano_invariante (btGo_sano comision hc1 tl (estadoInicial cap0)
      (Or.inl ⟨rfl, rfl, hcap⟩) (fun pr hpr => hpos pr (by simp [hpr])) st ?_)
    simpa [backtest_estrategia] using hmem

/-- Witness for C9 amended: the state right after the buy of a concrete
all-positive replay satisfies the invariant. -/
theorem c9_invariante_amendado_witness :
    invariantePosicion ⟨0, 9990, 1⟩ := by
  have hmem : (⟨0, 9990, 1⟩ : BTEstado) ∈
      (backtest_estrategia (1/1000) 100000 [(10, 0), (10, 1), (10, -1)]).map Prod.fst := by
    have htr : (backtest_estrategia (1/1000) 100000 [(10, 0), (10, 1), (10, -1)]).map Prod.fst
        = [⟨0, 9990, 1⟩, ⟨999 * 999 / 10, 0, 0⟩] := by
      norm_num [backtest_estrategia, btGo, btStep, estadoInicial, BTEstado.mk.injEq]
    rw [htr]
    simp
  exact c9_invariante_amendado (1/1000) 100000 [(10, 0), (10, 1), (10, -1)]
    (by norm_num) (by norm_num) (by norm_num) ⟨0, 9990, 1⟩ hmem

lemma simLoop_cota (pmin pmax : ℚ) (numSim : ℕ) (draws : ℕ → List ℚ) :
    ∀ (fuel intentos exitosas : ℕ) (acc : List (List ℚ)),
      acc.length = exitosas → exitosas ≤ numSim →
      (simLoop pmin pmax numSim draws fuel intentos exitosas acc).1.length ≤ numSim ∧
      (simLoop pmin pmax numSim draws fuel intentos exitosas acc).2 ≤ intentos + fuel ∧
      ((simLoop pmin pmax numSim draws fuel intentos exitosas acc).1.length = numSim ∨
        (simLoop pmin pmax numSim draws fuel intentos exitosas acc).2 = intentos + fuel) := by
  intro fuel
  induction fuel with
  | zero =>
    intro intentos exitosas acc hlen hle
    refine ⟨?_, ?_, Or.inr ?_⟩ <;> simp only [simLoop, List.length_reverse] <;> omega
  | succ fuel ih =>
    intro intentos exitosas acc hlen hle
    by_cases h : exitosas < numSim
    · simp only [simLoop, if_pos h]
      by_cases hb : fueraDeLimites pmin pmax (normalizar (draws intentos)) = true
      · rw [if_pos hb]
        obtain ⟨l1, l2, l3⟩ := ih (intentos + 1) exitosas acc hlen hle
        exact ⟨l1, by omega, by omega⟩
      · rw [if_neg hb]
        obtain ⟨l1, l2, l3⟩ := ih (intentos + 1) (exitosas + 1)
          (normalizar (draws intentos) :: acc) (by simp [hlen]) (by omega)
        exact ⟨l1, by omega, by omega⟩
    · simp only [simLoop, if_neg h, List.length_reverse]
      exact ⟨hlen ▸ hle, by omega, Or.inl (by omega)⟩

/-- C5: for every positive target count, every bound configuration and every
draw stream, the Monte Carlo loop makes at most 10 times N attempts, returns
at most N samples, exits exactly when N samples are accepted or the attempt
ceiling is reached, and a short return (fewer than N samples) happens only at
the attempt ceiling; the short case returns the list normally. -/
theorem c5_montecarlo_techo_de_intentos (msqrt : ℚ → ℚ)
    (retornos : List (String × List ℚ)) (numSim : ℕ)
    (restricciones : Option Restricciones) (draws : ℕ → List ℚ)
    (hN : 0 < numSim) :
    (simular_portfolios msqrt retornos numSim restricciones draws).2 ≤ 10 * numSim ∧
    (simular_portfolios msqrt retornos numSim restricciones draws).1.length ≤ numSim ∧
    ((simular_portfolios msqrt retornos numSim restricciones draws).1.length = numSim ∨
      (simular_portfolios msqrt retornos numSim restricciones draws).2 = 10 * numSim) ∧
    ((simular_portfolios msqrt retornos numSim restricciones draws).1.length < numSim →
      (simular_portfolios msqrt retornos numSim restricciones draws).2 = 10 * numSim) := by
  obtain ⟨h1, h2, h3⟩ := simLoop_cota (simResolved restricciones).1
    (simResolved restricciones).2 numSim draws (10 * numSim) 0 0 [] rfl (Nat.zero_le _)
  simp only [simular_portfolios, List.length_map]
  exact ⟨by omega, h1, by omega, by omega⟩

/-- Witness for C5 at a concrete two-sample run. -/
theorem c5_montecarlo_techo_de_intentos_witness :
    (simular_portfolios sqrtQ [("A", [(1:ℚ)/100, 2/100])] 2 none (fun _ => [1])).2 ≤ 10 * 2 ∧
    (simular_portfolios sqrtQ [("A", [(1:ℚ)/100, 2/100])] 2 none (fun _ => [1])).1.length ≤ 2 ∧
    ((simular_portfolios sqrtQ [("A", [(1:ℚ)/100, 2/100])] 2 none (fun _ => [1])).1.length = 2 ∨
      (simular_portfolios sqrtQ [("A", [(1:ℚ)/100, 2/100])] 2 none (fun _ => [1])).2 = 10 * 2) ∧
    ((simular_portfolios sqrtQ [("A", [(1:ℚ)/100, 2/100])] 2 none (fun _ => [1])).1.length < 2 →
      (simular_portfolios sqrtQ [("A", [(1:ℚ)/100, 2/100])] 2 none (fun _ => [1])).2 = 10 * 2) :=
  c5_montecarlo_techo_de_intentos sqrtQ [("A", [(1:ℚ)/100, 2/100])] 2 none (fun _ => [1])
    (by norm_num)

lemma sumQ_map_div (d : List ℚ) (s : ℚ) : sumQ (d.map (· / s)) = sumQ d / s := by
  induction d with
  | nil => simp [sumQ]
  | cons a tl ih =>
    simp only [sumQ, List.map_cons, List.sum_cons] at ih ⊢
    rw [ih, add_div]

lemma normalizar_en_simplex (d : List ℚ) (h0 : ∀ x ∈ d, 0 ≤ x)
    (hs : 0 < sumQ d) :
    sumQ (normalizar d) = 1 ∧ ∀ w ∈ normalizar d, 0 ≤ w ∧ w ≤ 1 := by
  constructor
  · simp only [normalizar]
    rw [sumQ_map_div]
    exact div_self (ne_of_gt hs)
  · intro w hw
    simp only [normalizar, List.mem_map] at hw
    obtain ⟨x, hx, rfl⟩ := hw
    refine ⟨div_nonneg (h0 x hx) (le_of_lt hs), ?_⟩
    rw [div_le_one hs]
    have : x ≤ (d.map id).sum := List.single_le_sum (by simpa using h0) x (by simpa using hx)
    simpa [sumQ] using this

lemma dentroDeLimites (ws : List ℚ) (h : ∀ w ∈ ws, 0 ≤ w ∧ w ≤ 1) :
    fueraDeLimites 0 1 ws = false := by
  simp only [fueraDeLimites, Bool.or_eq_false_iff, List.any_eq_false,
    decide_eq_true_eq]
  constructor
  · intro x hx
    exact not_lt.mpr (h x hx).1
  · intro x hx
    exact not_lt.mpr (h x hx).2

lemma simLoop_todo_aceptado (pmin pmax : ℚ) (numSim : ℕ) (draws : ℕ → List ℚ)
    (hok : ∀ i, fueraDeLimites pmin pmax (normalizar (draws i)) = false) :
    ∀ (fuel intentos exitosas : ℕ) (acc : List (List ℚ)),
      (simLoop pmin pmax numSim draws fuel intentos exitosas acc).1.length
        = acc.length + min (numSim - exitosas) fuel := by
  intro fuel
  induction fuel with
  | zero =>
    intro intentos exitosas acc
    simp [simLoop]
  | succ fuel ih =>
    intro intentos exitosas acc
    by_cases h : exitosas < numSim
    · simp only [simLoop, if_pos h, hok intentos, Bool.false_eq_true, if_false]
      rw [ih (intentos + 1) (exitosas + 1) (normalizar (draws intentos) :: acc)]
      simp only [List.length_cons]
      omega
    · simp only [simLoop, if_neg h, List.length_reverse]
      omega

lemma simLoop_mem (pmin pmax : ℚ) (numSim : ℕ) (draws : ℕ → List ℚ)
    (P : List ℚ → Prop) (hP : ∀ i, P (normalizar (draws i))) :
    ∀ (fuel intentos exitosas : ℕ) (acc : List (List ℚ)),
      (∀ w ∈ acc, P w) →
      ∀ w ∈ (simLoop pmin pmax numSim draws fuel intentos exitosas acc).1, P w := by
  intro fuel
  induction fuel with
  | zero =>
    intro intentos exitosas acc hacc w hw
    simp only [simLoop, List.mem_reverse] at hw
    exact hacc w hw
  | succ fuel ih =>
    intro intentos exitosas acc hacc w hw
    by_cases h : exitosas < numSim
    · simp only [simLoop, if_pos h] at hw
      by_cases hb : fueraDeLimites pmin pmax (normalizar (draws intentos)) = true
      · rw [if_pos hb] at hw
        exact ih _ _ _ hacc w hw
      · rw [if_neg hb] at hw
        refine ih _ _ _ ?_ w hw
        intro v hv
        rcases List.mem_cons.mp hv with rfl | hv2
        · exact hP intentos
        · exact hacc v hv2
    · simp only [simLoop, if_neg h, List.mem_reverse] at hw
      exact hacc w hw

/-- C7 counterexample: the draw stream of np.random.random lives in the
interval from 0 inclusive to 1 exclusive, so the all-zero draw is a legal
outcome; it is normalised by a division by zero, passes the bound check
unrejected, and every one of the 1000 returned points then carries a weight
vector whose sum is 0, not 1 within 1e-6 (in floating point the weights are
NaN, with the same acceptance behaviour and the same violated sum). -/
theorem c7_counterexample :
    (simular_portfolios sqrtQ [("A", [(1:ℚ)/100, 2/100])] 1000 none
        (fun _ => [0])).1.length = 1000 ∧
    ¬ (∀ pt ∈ (simular_portfolios sqrtQ [("A", [(1:ℚ)/100, 2/100])] 1000 none
        (fun _ => [0])).1, |sumQ pt.pesos - 1| ≤ 1/1000000) := by
  have hnorm : normalizar ([0] : List ℚ) = [0] := by
    simp [normalizar, sumQ]
  have hok : ∀ i : ℕ, fueraDeLimites 0 1 (normalizar ([0] : List ℚ)) = false := by
    intro _
    rw [hnorm]
    simp [fueraDeLimites]
  have hres1 : (simResolved (none : Option Restricciones)).1 = 0 := rfl
  have hres2 : (simResolved (none : Option Restricciones)).2 = 1 := rfl
  constructor
  · simp only [simular_portfolios, List.length_map, hres1, hres2]
    rw [simLoop_todo_aceptado 0 1 1000 (fun _ => [0]) hok (10 * 1000) 0 0 []]
    simp
  · intro hall
    have hlen : (simular_portfolios sqrtQ [("A", [(1:ℚ)/100, 2/100])] 1000 none
        (fun _ => [0])).1.length = 1000 := by
      simp only [simular_portfolios, List.length_map, hres1, hres2]
      rw [simLoop_todo_aceptado 0 1 1000 (fun _ => [0]) hok (10 * 1000) 0 0 []]
      simp
    obtain ⟨pt, hpt⟩ := List.exists_mem_of_length_pos (by rw [hlen]; omega)
    have hw : pt.pesos = [0] := by
      have hmemw : ∀ w ∈ (simLoop 0 1 1000 (fun _ => [0]) (10 * 1000) 0 0 []).1,
          w = [0] :=
        simLoop_mem 0 1 1000 (fun _ => [0]) (fun w => w = [0])
          (fun _ => hnorm) (10 * 1000) 0 0 [] (by simp)
      have hpt2 := hpt
      simp only [simular_portfolios, List.mem_map, hres1, hres2] at hpt2
      obtain ⟨w, hwmem, rfl⟩ := hpt2
      simpa [mkSimPoint] using hmemw w hwmem
    have := hall pt hpt
    rw [hw] at this
    norm_num [sumQ] at this

/-- C7 amended: whenever every draw vector is nonnegative with positive sum
(every legal np.random.random outcome except the all-zero vector), sampling
with the default bounds 0 and 1 and N = 1000 returns exactly 1000 points and
every returned weight vector sums exactly to 1 with every weight between 0
and 1; an all-zero draw instead is accepted unchecked and breaks the sum
property. -/
theorem c7_amendada (msqrt : ℚ → ℚ) (retornos : List (String × List ℚ))
    (draws : ℕ → List ℚ)
    (hd : ∀ i, (∀ x ∈ draws i, 0 ≤ x) ∧ 0 < sumQ (draws i)) :
    (simular_portfolios msqrt retornos 1000 none draws).1.length = 1000 ∧
    ∀ pt ∈ (simular_portfolios msqrt retornos 1000 none draws).1,
      sumQ pt.pesos = 1 ∧ ∀ w ∈ pt.pesos, 0 ≤ w ∧ w ≤ 1 := by
  have hsimplex : ∀ i, sumQ (normalizar (draws i)) = 1 ∧
      ∀ w ∈ normalizar (draws i), 0 ≤ w ∧ w ≤ 1 :=
    fun i => normalizar_en_simplex (draws i) (hd i).1 (hd i).2
  have hok : ∀ i, fueraDeLimites 0 1 (normalizar (draws i)) = false :=
    fun i => dentroDeLimites _ (hsimplex i).2
  have hres1 : (simResolved (none : Option Restricciones)).1 = 0 := rfl
  have hres2 : (simResolved (none : Option Restricciones)).2 = 1 := rfl
  constructor
  · simp only [simular_portfolios, List.length_map, hres1, hres2]
    rw [simLoop_todo_aceptado 0 1 1000 draws hok (10 * 1000) 0 0 []]
    simp
  · intro pt hpt
    simp only [simular_portfolios, List.mem_map, hres1, hres2] at hpt
    obtain ⟨w, hwmem, rfl⟩ := hpt
    have := simLoop_mem 0 1 1000 draws
      (fun w => sumQ w = 1 ∧ ∀ x ∈ w, 0 ≤ x ∧ x ≤ 1) hsimplex
      (10 * 1000) 0 0 [] (by simp) w hwmem
    simpa [mkSimPoint] using this

/-- Witness for C7 amended at the constant draw stream with a single entry 1. -/
theorem c7_amendada_witness :
    (simular_portfolios sqrtQ [("A", [(1:ℚ)/100, 2/100])] 1000 none
        (fun _ => [1])).1.length = 1000 :=
  (c7_amendada sqrtQ [("A", [(1:ℚ)/100, 2/100])] (fun _ => [1])
    (fun _ => ⟨by norm_num, by norm_num [sumQ]⟩)).1

/-- C2 counterexample: an asset with exactly one observation (fewer than 2)
does not make the call fail; it silently receives a metrics row. -/
lemma metricasFilas_nombres (msqrt : ℚ → ℚ) (confianza : ℚ) (ventana : ℕ)
    (retornos : List (String × List PVal)) :
    (metricasFilas msqrt retornos confianza ventana).map Prod.fst
      = (retornos.filter (fun c => !(c.2.filterMap id).isEmpty)).map Prod.fst := by
  induction retornos with
  | nil => rfl
  | cons hd tl ih =>
    by_cases h : (hd.2.filterMap id).isEmpty
    · have hhead : metricasFilas msqrt (hd :: tl) confianza ventana
          = metricasFilas msqrt tl confianza ventana := by
        unfold metricasFilas
        rw [List.filterMap_cons]
        simp [h]
      rw [hhead, List.filter_cons_of_neg (by simp [h])]
      exact ih
    · have hhead : metricasFilas msqrt (hd :: tl) confianza ventana
          = (hd.1, metricasDe msqrt confianza ventana (hd.2.filterMap id))
            :: metricasFilas msqrt tl confianza ventana := by
        unfold metricasFilas
        rw [List.filterMap_cons]
        simp [h]
      rw [hhead, List.filter_cons_of_pos (by simp [h]), List.map_cons, List.map_cons, ih]

theorem c2_counterexample :
    (calcular_metricas_riesgo sqrtQ [("A", [some ((1:ℚ)/100)])] (1/20) 252).map
      (fun t => t.map Prod.fst) = some ["A"] := by
  rfl

/-- C2 amended: calcular_metricas_riesgo never raises InsufficientDataError.
It crashes (KeyError at the summary print of line 107) exactly when every
asset has zero usable observations; otherwise it returns a table whose rows
are exactly the assets with a nonempty cleaned series - an asset with a
single observation gets a row whose annualised volatility is NaN and whose
Sharpe ratio is 0. -/
theorem c2_amendada (msqrt : ℚ → ℚ) (confianza : ℚ) (ventana : ℕ)
    (retornos : List (String × List PVal)) :
    ((calcular_metricas_riesgo msqrt retornos confianza ventana = none) ↔
      retornos.filter (fun c => !(c.2.filterMap id).isEmpty) = []) ∧
    (∀ t, calcular_metricas_riesgo msqrt retornos confianza ventana = some t →
      t.map Prod.fst
        = (retornos.filter (fun c => !(c.2.filterMap id).isEmpty)).map Prod.fst) ∧
    (∀ s : List ℚ, s ≠ [] → s.length < 2 →
      (metricasDe msqrt confianza ventana s).volatilidad_anual = none ∧
      (metricasDe msqrt confianza ventana s).sharpe_ratio = 0) := by
  have hnom := metricasFilas_nombres msqrt confianza ventana retornos
  refine ⟨⟨?_, ?_⟩, ?_, ?_⟩
  · intro hn
    unfold calcular_metricas_riesgo at hn
    by_cases h : (metricasFilas msqrt retornos confianza ventana).isEmpty
    · have hfe : metricasFilas msqrt retornos confianza ventana = [] :=
        List.isEmpty_iff.mp h
      have hmapnil : (retornos.filter
          (fun c => !(c.2.filterMap id).isEmpty)).map Prod.fst = [] := by
        rw [← hnom, hfe]
        rfl
      exact List.map_eq_nil_iff.mp hmapnil
    · rw [if_neg h] at hn
      exact absurd hn (by simp)
  · intro hf
    unfold calcular_metricas_riesgo
    have hmapnil : (metricasFilas msqrt retornos confianza ventana).map Prod.fst
        = [] := by
      rw [hnom, hf]
      rfl
    have hfe : metricasFilas msqrt retornos confianza ventana = [] :=
      List.map_eq_nil_iff.mp hmapnil
    rw [hfe]
    rfl
  · intro t ht
    unfold calcular_metricas_riesgo at ht
    by_cases h : (metricasFilas msqrt retornos confianza ventana).isEmpty
    · rw [if_pos h] at ht
      exact absurd ht (by simp)
    · rw [if_neg h] at ht
      rw [← Option.some.injEq _ _ |>.mp ht]
      exact hnom
  · intro s _ hlen
    have hstd : pstd msqrt s = none := by
      unfold pstd
      rw [if_neg (by omega)]
    constructor
    · show (pstd msqrt s).map (· * msqrt (ventana : ℚ)) = none
      rw [hstd]
      rfl
    · show sharpeDe (meanQ s * (ventana : ℚ))
        ((pstd msqrt s).map (· * msqrt (ventana : ℚ))) = 0
      rw [hstd]
      rfl

/-- Witness for C2 amended: a one-observation batch completes with the row for
its asset, whose volatility is the NaN sentinel and whose Sharpe is 0. -/
theorem c2_amendada_witness :
    ([("A", metricasDe sqrtQ (1/20) 252 [(1:ℚ)/100])].map Prod.fst
      = (([("A", [some ((1:ℚ)/100)])] : List (String × List PVal)).filter
          (fun c => !(c.2.filterMap id).isEmpty)).map Prod.fst) ∧
    (metricasDe sqrtQ (1/20) 252 [(1:ℚ)/100]).volatilidad_anual = none ∧
    (metricasDe sqrtQ (1/20) 252 [(1:ℚ)/100]).sharpe_ratio = 0 :=
  ⟨(c2_amendada sqrtQ (1/20) 252 [("A", [some ((1:ℚ)/100)])]).2.1
      [("A", metricasDe sqrtQ (1/20) 252 [(1:ℚ)/100])] rfl,
    (c2_amendada sqrtQ (1/20) 252 [("A", [some ((1:ℚ)/100)])]).2.2
      [(1:ℚ)/100] (by simp) (by norm_num)⟩

/-- C8: for every asset whose cleaned series is nonempty, the batch completes
(returning the row table) and keeps that asset's row, the CVaR field equals
the (total, never-raising) pandas mean of the returns at or below the
historical VaR, and that mean is the NaN sentinel when the tail is empty, so
processing of the remaining assets continues. -/
theorem c8_cvar_nan_sin_excepcion (msqrt : ℚ → ℚ) (confianza : ℚ) (ventana : ℕ)
    (retornos : List (String × List PVal)) (a : String) (col : List PVal)
    (hmem : (a, col) ∈ retornos) (hne : col.filterMap id ≠ []) :
    (calcular_metricas_riesgo msqrt retornos confianza ventana
        = some (metricasFilas msqrt retornos confianza ventana) ∧
      (a, metricasDe msqrt confianza ventana (col.filterMap id)) ∈
        metricasFilas msqrt retornos confianza ventana) ∧
    ((metricasDe msqrt confianza ventana (col.filterMap id)).cvar_historico
      = pmean ((col.filterMap id).filter
          (fun r => decide (r ≤ percentileQ (col.filterMap id) (confianza * 100))))) ∧
    (((col.filterMap id).filter
        (fun r => decide (r ≤ percentileQ (col.filterMap id) (confianza * 100)))) = [] →
      (metricasDe msqrt confianza ventana (col.filterMap id)).cvar_historico = none) := by
  have hrow : (a, metricasDe msqrt confianza ventana (col.filterMap id)) ∈
      metricasFilas msqrt retornos confianza ventana := by
    refine List.mem_filterMap.mpr ⟨(a, col), hmem, ?_⟩
    have hie : (col.filterMap id).isEmpty = false := by
      cases h : col.filterMap id with
      | nil => exact absurd h hne
      | cons x xs => rfl
    simp [hie]
  refine ⟨⟨?_, hrow⟩, rfl, ?_⟩
  · unfold calcular_metricas_riesgo
    rw [if_neg ?hnem]
    case hnem =>
      simp [List.isEmpty_iff, List.ne_nil_of_mem hrow]
  · intro h
    show pmean ((col.filterMap id).filter
        (fun r => decide (r ≤ percentileQ (col.filterMap id) (confianza * 100)))) = none
    rw [h]
    rfl

/-- Witness for C8 at a concrete two-observation asset: the call completes
and the row is in the returned table. -/
theorem c8_cvar_nan_sin_excepcion_witness :
    calcular_metricas_riesgo sqrtQ [("A", [some ((1:ℚ)/100), some (3/100)])] (1/20) 252
        = some (metricasFilas sqrtQ [("A", [some ((1:ℚ)/100), some (3/100)])] (1/20) 252) ∧
    ("A", metricasDe sqrtQ (1/20) 252
        (([some ((1:ℚ)/100), some (3/100)] : List PVal).filterMap id)) ∈
      metricasFilas sqrtQ [("A", [some ((1:ℚ)/100), some (3/100)])] (1/20) 252 :=
  (c8_cvar_nan_sin_excepcion sqrtQ (1/20) 252
    [("A", [some ((1:ℚ)/100), some (3/100)])] "A" [some ((1:ℚ)/100), some (3/100)]
    (by simp) (by simp)).1

lemma optimizar_some (msqrt : ℚ → ℚ) (retornos : List (String × List ℚ))
    (objetivo : Objetivo) (restricciones : Option Restricciones) (pesos : List ℚ) :
    optimizar_portfolio msqrt retornos objetivo restricciones (some pesos) = some
      { pesos := pesos
        retorno_bruto := dotQ (mediasAnuales retornos) pesos
        retorno_neto := dotQ (mediasAnuales retornos) pesos -
          (optResolved restricciones).costos_transaccion.getD 0 *
            sumQ (pesos.map (fun x => |x|))
        volatilidad := msqrt (quadForm (covAnual retornos) pesos)
        sharpe_bruto := if 0 < msqrt (quadForm (covAnual retornos) pesos) then
          dotQ (mediasAnuales retornos) pesos / msqrt (quadForm (covAnual retornos) pesos)
          else 0
        sharpe_neto := if 0 < msqrt (quadForm (covAnual retornos) pesos) then
          (dotQ (mediasAnuales retornos) pesos -
            (optResolved restricciones).costos_transaccion.getD 0 *
              sumQ (pesos.map (fun x => |x|)))
            / msqrt (quadForm (covAnual retornos) pesos)
          else 0
        costos_estimados := (optResolved restricciones).costos_transaccion.getD 0 *
          sumQ (pesos.map (fun x => |x|)) } := rfl

/-- C1 counterexample: both bracketing solves succeed, yet with one frontier
target whose own solve fails the per-target list is empty and the call
returns None (source lines 447-449), refuting never-None under successful
brackets. -/
theorem c1_counterexample :
    (optimizar_portfolio sqrtQ [("A", [(1:ℚ)/100, 2/100])] .vol_min none
      (some [1])).isSome = true ∧
    (optimizar_portfolio sqrtQ [("A", [(1:ℚ)/100, 2/100])] .retorno_max none
      (some [1])).isSome = true ∧
    calcular_frontera_eficiente sqrtQ [("A", [(1:ℚ)/100, 2/100])] 1 none
      (some [1]) (some [1]) (fun _ => none) = none := by
  exact ⟨rfl, rfl, rfl⟩

/-- C1 amended: the call returns None exactly when a bracketing solve fails or
every per-target solve fails; whenever both bracketing solves succeed and at
least one target solves, it returns the sequence of successfully solved
points, with infeasible targets silently excluded. -/
theorem c1_amendada (msqrt : ℚ → ℚ) (retornos : List (String × List ℚ))
    (numPuntos : ℕ) (restricciones : Option Restricciones)
    (smin smax : Option (List ℚ)) (stgt : ℚ → Option (List ℚ)) (a b : OptExito)
    (ha : optimizar_portfolio msqrt retornos .vol_min restricciones smin = some a)
    (hb : optimizar_portfolio msqrt retornos .retorno_max restricciones smax = some b)
    (hne : puntosFrontera msqrt (covAnual retornos)
        (linspace a.retorno_neto b.retorno_neto numPuntos) stgt ≠ []) :
    calcular_frontera_eficiente msqrt retornos numPuntos restricciones smin smax stgt
      = some (puntosFrontera msqrt (covAnual retornos)
          (linspace a.retorno_neto b.retorno_neto numPuntos) stgt) := by
  unfold calcular_frontera_eficiente
  rw [ha, hb]
  simp [hne]

/-- Witness for C1 amended: with a successful target solve the frontier is
returned (non-None). -/
theorem c1_amendada_witness :
    (calcular_frontera_eficiente sqrtQ [("A", [(1:ℚ)/100, 2/100])] 1 none
      (some [1]) (some [1]) (fun _ => some [1])).isSome = true := by
  have h := c1_amendada sqrtQ [("A", [(1:ℚ)/100, 2/100])] 1 none (some [1]) (some [1])
    (fun _ => some [1]) _ _ rfl rfl (by simp [puntosFrontera, linspace])
  rw [h]
  rfl

/-- C4: every Sharpe ratio computed by the engines is exactly 0 when the
corresponding volatility is 0, with no division performed in that case: the
per-asset risk metrics row, the Monte Carlo point evaluation, the
optimisation success record (gross and net), and both backtest performance
Sharpe values. -/
theorem c4_sharpe_cero_con_volatilidad_cero :
    (∀ (msqrt : ℚ → ℚ) (confianza : ℚ) (ventana : ℕ) (s : List ℚ),
      (metricasDe msqrt confianza ventana s).volatilidad_anual = some 0 →
      (metricasDe msqrt confianza ventana s).sharpe_ratio = 0) ∧
    (∀ (msqrt : ℚ → ℚ) (means : List ℚ) (cov : List (List ℚ)) (w : List ℚ),
      (mkSimPoint msqrt means cov w).volatilidad = 0 →
      (mkSimPoint msqrt means cov w).sharpe = 0) ∧
    (∀ (msqrt : ℚ → ℚ) (retornos : List (String × List ℚ)) (objetivo : Objetivo)
      (restricciones : Option Restricciones) (osolve : Option (List ℚ)) (r : OptExito),
      optimizar_portfolio msqrt retornos objetivo restricciones osolve = some r →
      r.volatilidad = 0 → r.sharpe_bruto = 0 ∧ r.sharpe_neto = 0) ∧
    (∀ (msqrt : ℚ → ℚ) (fpow : ℚ → ℚ → ℚ) (comision cap0 : ℚ) (filas : List (ℚ × ℤ)),
      ((backtest_metricas msqrt fpow comision cap0 filas).vol_estrategia = some 0 →
        (backtest_metricas msqrt fpow comision cap0 filas).sharpe_estrategia = 0) ∧
      ((backtest_metricas msqrt fpow comision cap0 filas).vol_buy_hold = some 0 →
        (backtest_metricas msqrt fpow comision cap0 filas).sharpe_buy_hold = 0)) := by
  refine ⟨?_, ?_, ?_, ?_⟩
  · intro msqrt confianza ventana s h
    have hs : (metricasDe msqrt confianza ventana s).sharpe_ratio
        = sharpeDe (metricasDe msqrt confianza ventana s).retorno_anual
          (metricasDe msqrt confianza ventana s).volatilidad_anual := rfl
    rw [hs, h]
    simp [sharpeDe]
  · intro msqrt means cov w h
    have hv : msqrt (quadForm cov w) = 0 := h
    show (if 0 < msqrt (quadForm cov w) then
      dotQ means w / msqrt (quadForm cov w) else 0) = 0
    rw [hv]
    norm_num
  · intro msqrt retornos objetivo restricciones osolve r heq hvol
    cases osolve with
    | none => simp [optimizar_portfolio] at heq
    | some pesos =>
      rw [optimizar_some] at heq
      injection heq with h2
      subst h2
      have hv : msqrt (quadForm (covAnual retornos) pesos) = 0 := hvol
      constructor
      · show (if 0 < msqrt (quadForm (covAnual retornos) pesos) then
          dotQ (mediasAnuales retornos) pesos / msqrt (quadForm (covAnual retornos) pesos)
          else 0) = 0
        rw [hv]
        norm_num
      · show (if 0 < msqrt (quadForm (covAnual retornos) pesos) then
          (dotQ (mediasAnuales retornos) pesos -
            (optResolved restricciones).costos_transaccion.getD 0 *
              sumQ (pesos.map (fun x => |x|)))
            / msqrt (quadForm (covAnual retornos) pesos)
          else 0) = 0
        rw [hv]
        norm_num
  · intro msqrt fpow comision cap0 filas
    constructor
    · intro h
      have hs : (backtest_metricas msqrt fpow comision cap0 filas).sharpe_estrategia
          = sharpeDe (backtest_metricas msqrt fpow comision cap0 filas).retorno_anualizado_estrategia
            (backtest_metricas msqrt fpow comision cap0 filas).vol_estrategia := rfl
      rw [hs, h]
      simp [sharpeDe]
    · intro h
      have hs : (backtest_metricas msqrt fpow comision cap0 filas).sharpe_buy_hold
          = sharpeDe (backtest_metricas msqrt fpow comision cap0 filas).retorno_anualizado_buy_hold
            (backtest_metricas msqrt fpow comision cap0 filas).vol_buy_hold := rfl
      rw [hs, h]
      simp [sharpeDe]

/-- Witness for C4: concrete zero-volatility inputs for each of the four
engine Sharpe sites. -/
theorem c4_sharpe_cero_con_volatilidad_cero_witness :
    (metricasDe sqrtQ (1/20) 252 [(1:ℚ)/100, 1/100]).sharpe_ratio = 0 ∧
    (mkSimPoint sqrtQ [(0:ℚ)] [[(0:ℚ)]] [1]).sharpe = 0 ∧
    ((optimizar_portfolio sqrtQ [("A", [(1:ℚ)/100, 1/100])] .sharpe_max none
      (some [1])).map (fun r => (r.sharpe_bruto, r.sharpe_neto))) = some (0, 0) ∧
    (backtest_metricas sqrtQ qpow1 (1/1000) 100000
      [((10:ℚ), (0:ℤ)), (10, 0)]).sharpe_estrategia = 0 := by
  have hvol1 : (metricasDe sqrtQ (1/20) 252 [(1:ℚ)/100, 1/100]).volatilidad_anual
      = some 0 := by
    norm_num [metricasDe, pstd, samplevarQ, meanQ, sumQ, sqrtQ]
  have hvol2 : (mkSimPoint sqrtQ [(0:ℚ)] [[(0:ℚ)]] [1]).volatilidad = 0 := by
    norm_num [mkSimPoint, quadForm, dotQ, sumQ, sqrtQ]
  have hvolO : sqrtQ (quadForm (covAnual [("A", [(1:ℚ)/100, 1/100])]) [1]) = 0 := by
    norm_num [covAnual, covQ, quadForm, dotQ, sumQ, meanQ, sqrtQ]
  refine ⟨?_, ?_, ?_, ?_⟩
  · exact c4_sharpe_cero_con_volatilidad_cero.1 sqrtQ (1/20) 252 [(1:ℚ)/100, 1/100] hvol1
  · exact c4_sharpe_cero_con_volatilidad_cero.2.1 sqrtQ [(0:ℚ)] [[(0:ℚ)]] [1] hvol2
  · have heq := optimizar_some sqrtQ [("A", [(1:ℚ)/100, 1/100])] .sharpe_max none [1]
    have h4 := c4_sharpe_cero_con_volatilidad_cero.2.2.1 sqrtQ
      [("A", [(1:ℚ)/100, 1/100])] .sharpe_max none (some [1]) _ heq hvolO
    rw [heq]
    simp only [Option.map_some']
    exact congrArg some (congrArg₂ Prod.mk h4.1 h4.2)
  · have hvol4 : (backtest_metricas sqrtQ qpow1 (1/1000) 100000
        [((10:ℚ), (0:ℤ)), (10, 0)]).vol_estrategia = some 0 := by
      norm_num [backtest_metricas, equityCol, pctChanges, backtest_estrategia, btGo,
        btStep, estadoInicial, pstd, samplevarQ, meanQ, sumQ, sqrtQ]
    exact (c4_sharpe_cero_con_volatilidad_cero.2.2.2 sqrtQ qpow1 (1/1000) 100000
      [((10:ℚ), (0:ℤ)), (10, 0)]).1 hvol4

/-- C10: with restricciones None, optimizar_portfolio resolves the defaults
to bounds 0.05 and 0.40 with a 0.005 transaction-cost rate, while
simular_portfolios resolves to bounds 0.0 and 1.0, and its point evaluation
applies no cost at all; the two defaults are distinct configurations, and the
0.005 rate really enters the optimiser net return. -/
theorem c10_configuraciones_por_defecto :
    optResolved none = ⟨some (1/20), some (2/5), some (1/200)⟩ ∧
    simResolved none = (0, 1) ∧
    ((optResolved none).peso_min.getD 0, (optResolved none).peso_max.getD 1)
      ≠ simResolved none ∧
    (∀ (msqrt : ℚ → ℚ) (means : List ℚ) (cov : List (List ℚ)) (w : List ℚ),
      (mkSimPoint msqrt means cov w).retorno = dotQ means w) ∧
    (∀ (msqrt : ℚ → ℚ) (retornos : List (String × List ℚ)) (objetivo : Objetivo)
      (w : List ℚ) (r : OptExito),
      optimizar_portfolio msqrt retornos objetivo none (some w) = some r →
      r.retorno_neto = dotQ (mediasAnuales retornos) w
        - (1/200) * sumQ (w.map (fun x => |x|))) := by
  refine ⟨rfl, rfl, ?_, fun _ _ _ _ => rfl, ?_⟩
  · intro h
    have h1 := congrArg Prod.fst h
    norm_num [optResolved, simResolved] at h1
  · intro msqrt retornos objetivo w r heq
    rw [optimizar_some] at heq
    injection heq with h2
    subst h2
    rfl

/-- Witness for C10 at a concrete optimiser success. -/
theorem c10_configuraciones_por_defecto_witness :
    ((optimizar_portfolio sqrtQ [("A", [(1:ℚ)/100, 1/100])] .retorno_max none
      (some [1])).map OptExito.retorno_neto)
      = some (dotQ (mediasAnuales [("A", [(1:ℚ)/100, 1/100])]) [1]
          - (1/200) * sumQ (([1] : List ℚ).map (fun x => |x|))) := by
  have heq := optimizar_some sqrtQ [("A", [(1:ℚ)/100, 1/100])] .retorno_max none [1]
  rw [heq]
  simp only [Option.map_some']
  exact congrArg some (c10_configuraciones_por_defecto.2.2.2.2 sqrtQ
    [("A", [(1:ℚ)/100, 1/100])] .retorno_max [1] _ heq)

end FinTP
